import Mathlib

/-!
Verification of the Asl compiler core (semantic analysis and code generation).

The development shallowly embeds the three tree passes of the repository
(`SymbolsVisitor.cpp`, `TypeCheckVisitor.cpp`, `CodeGenVisitor.cpp`).
Each visitor method is translated into a Lean function whose inputs are the
data the C++ method obtains from its collaborators (the decorations of the
already-visited children, the symbol table contents, the temporary counter)
and whose outputs are the decorations it stores, the diagnostics it emits,
and the instructions it generates.  The shared components that live outside
the three source files (`TypesMgr`, `SymTable`, `TreeDecoration`) are
modelled from the specification, as marked on each definition.
-/

namespace Asl

/-- Types interned by the type manager.  Modelled from the spec: `TypesMgr`
(component 4.A) is not part of the three source files; the spec lists the
variants Integer, Float, Boolean, Character, Void, Array(size, elem),
Function(params, ret) and Error, with structural identity. -/
inductive Ty where
  | intTy : Ty
  | floatTy : Ty
  | boolTy : Ty
  | charTy : Ty
  | voidTy : Ty
  | arrayTy (size : Nat) (elem : Ty) : Ty
  | funcTy (params : List Ty) (ret : Ty) : Ty
  | errTy : Ty

mutual

/-- Modelled from the spec: `TypesMgr::equalTypes` compares interned type
identifiers; interning is structural, so two types are equal exactly when
their structural descriptions coincide. -/
def Ty.beq : Ty → Ty → Bool
  | .intTy, .intTy => true
  | .floatTy, .floatTy => true
  | .boolTy, .boolTy => true
  | .charTy, .charTy => true
  | .voidTy, .voidTy => true
  | .arrayTy n e, .arrayTy m f => n == m && Ty.beq e f
  | .funcTy ps r, .funcTy qs s => Ty.beqList ps qs && Ty.beq r s
  | .errTy, .errTy => true
  | _, _ => false

/-- Pointwise structural equality on parameter lists. -/
def Ty.beqList : List Ty → List Ty → Bool
  | [], [] => true
  | a :: as, b :: bs => Ty.beq a b && Ty.beqList as bs
  | _, _ => false

end

mutual

theorem Ty.beq_refl : ∀ (a : Ty), Ty.beq a a = true
  | .intTy => rfl
  | .floatTy => rfl
  | .boolTy => rfl
  | .charTy => rfl
  | .voidTy => rfl
  | .arrayTy n e => by simp [Ty.beq, Ty.beq_refl e]
  | .funcTy ps r => by simp [Ty.beq, Ty.beq_refl r, Ty.beqList_refl ps]
  | .errTy => rfl

theorem Ty.beqList_refl : ∀ (l : List Ty), Ty.beqList l l = true
  | [] => rfl
  | a :: as => by simp [Ty.beqList, Ty.beq_refl a, Ty.beqList_refl as]

end

mutual

theorem Ty.eq_of_beq : ∀ (a b : Ty), Ty.beq a b = true → a = b
  | .intTy, .intTy, _ => rfl
  | .floatTy, .floatTy, _ => rfl
  | .boolTy, .boolTy, _ => rfl
  | .charTy, .charTy, _ => rfl
  | .voidTy, .voidTy, _ => rfl
  | .arrayTy n e, .arrayTy m f, h => by
    simp only [Ty.beq, Bool.and_eq_true, beq_iff_eq] at h
    rw [h.1, Ty.eq_of_beq e f h.2]
  | .funcTy ps r, .funcTy qs s, h => by
    simp only [Ty.beq, Bool.and_eq_true] at h
    rw [Ty.eqList_of_beqList ps qs h.1, Ty.eq_of_beq r s h.2]
  | .errTy, .errTy, _ => rfl

theorem Ty.eqList_of_beqList : ∀ (l m : List Ty), Ty.beqList l m = true → l = m
  | [], [], _ => rfl
  | a :: as, b :: bs, h => by
    simp only [Ty.beqList, Bool.and_eq_true] at h
    rw [Ty.eq_of_beq a b h.1, Ty.eqList_of_beqList as bs h.2]

end

instance : BEq Ty := ⟨Ty.beq⟩

instance : LawfulBEq Ty where
  eq_of_beq h := Ty.eq_of_beq _ _ h
  rfl := Ty.beq_refl _

instance : DecidableEq Ty := fun a b =>
  if h : Ty.beq a b = true then isTrue (Ty.eq_of_beq a b h)
  else isFalse (fun he => h (he ▸ Ty.beq_refl a))

/-- Modelled from the spec: `TypesMgr::isErrorTy`. -/
def Ty.isErrorTy : Ty → Bool
  | .errTy => true
  | _ => false

/-- Modelled from the spec: `TypesMgr::isIntegerTy`. -/
def Ty.isIntegerTy : Ty → Bool
  | .intTy => true
  | _ => false

/-- Modelled from the spec: `TypesMgr::isFloatTy`. -/
def Ty.isFloatTy : Ty → Bool
  | .floatTy => true
  | _ => false

/-- Modelled from the spec: `TypesMgr::isBooleanTy`. -/
def Ty.isBooleanTy : Ty → Bool
  | .boolTy => true
  | _ => false

/-- Modelled from the spec: `TypesMgr::isCharacterTy`. -/
def Ty.isCharacterTy : Ty → Bool
  | .charTy => true
  | _ => false

/-- Modelled from the spec: `TypesMgr::isVoidTy`. -/
def Ty.isVoidTy : Ty → Bool
  | .voidTy => true
  | _ => false

/-- Modelled from the spec: `TypesMgr::isArrayTy`. -/
def Ty.isArrayTy : Ty → Bool
  | .arrayTy _ _ => true
  | _ => false

/-- Modelled from the spec: `TypesMgr::isFunctionTy`. -/
def Ty.isFunctionTy : Ty → Bool
  | .funcTy _ _ => true
  | _ => false

/-- Modelled from the spec: `TypesMgr::isPrimitiveTy` (Integer, Float,
Boolean or Character). -/
def Ty.isPrimitiveTy (t : Ty) : Bool :=
  t.isIntegerTy || t.isFloatTy || t.isBooleanTy || t.isCharacterTy

/-- Modelled from the spec: `TypesMgr::isNumericTy` (Integer or Float). -/
def Ty.isNumericTy (t : Ty) : Bool :=
  t.isIntegerTy || t.isFloatTy

/-- Modelled from the spec: `TypesMgr::isVoidFunction` (a Function type
whose return type is Void). -/
def Ty.isVoidFunction : Ty → Bool
  | .funcTy _ ret => ret.isVoidTy
  | _ => false

/-- Modelled from the spec: `TypesMgr::getArrayElemType`.  The visitors only
apply it to array types; any other argument is mapped to the error type. -/
def Ty.getArrayElemType : Ty → Ty
  | .arrayTy _ e => e
  | _ => .errTy

/-- Modelled from the spec: `TypesMgr::getFuncReturnType`. -/
def Ty.getFuncReturnType : Ty → Ty
  | .funcTy _ ret => ret
  | _ => .errTy

/-- Modelled from the spec: `TypesMgr::getNumOfParameters`. -/
def Ty.getNumOfParameters : Ty → Nat
  | .funcTy ps _ => ps.length
  | _ => 0

/-- Modelled from the spec: `TypesMgr::getParameterType`. -/
def Ty.getParameterType : Ty → Nat → Ty
  | .funcTy ps _, i => ps.getD i .errTy
  | _, _ => .errTy

/-- Modelled from the spec: `TypesMgr::to_string`, a stable textual form of
a type used by the code generator when emitting declarations. -/
def Ty.toText : Ty → String
  | .intTy => "integer"
  | .floatTy => "float"
  | .boolTy => "boolean"
  | .charTy => "character"
  | .voidTy => "void"
  | .arrayTy n e => "array " ++ toString n ++ " of " ++ Ty.toText e
  | .funcTy _ _ => "function"
  | .errTy => "error"

/-- Diagnostic kinds of the error reporter (`SemErrors`), as enumerated in
the spec and emitted by the visitors.  `incompatibleParameter` carries the
1-based position passed by the callers. -/
inductive SemError where
  | declaredIdent : SemError
  | undeclaredIdent : SemError
  | nonReferenceableLeftExpr : SemError
  | incompatibleAssignment : SemError
  | booleanRequired : SemError
  | readWriteRequireBasic : SemError
  | nonReferenceableExpression : SemError
  | incompatibleReturn : SemError
  | incompatibleArgumentsInSwap : SemError
  | incompatibleValueInSwitch : SemError
  | nonArrayInArrayAccess : SemError
  | nonIntegerIndexInArrayAccess : SemError
  | incompatibleOperator : SemError
  | isNotCallable : SemError
  | isNotFunction : SemError
  | numberOfParameters : SemError
  | incompatibleParameter (pos : Nat) : SemError
  | noMainProperlyDeclared : SemError
  deriving DecidableEq

/-- The two decorations the type checker stores on a node (`TreeDecoration`
entries for the node): the type and the l-value flag.  `none` models an
entry that the pass never wrote; per the spec, reading such an entry is a
programming error. -/
structure NodeDecor where
  ty : Option Ty
  lval : Option Bool
  deriving DecidableEq

/-- Symbol kinds stored by the symbol table.  Modelled from the spec:
`SymTable` (component 4.B) keeps per-name kind LocalVar, Parameter or
Function. -/
inductive SymKind where
  | localVar : SymKind
  | param : SymKind
  | functionSym : SymKind
  deriving DecidableEq

/-- One symbol-table entry: name, kind and type. -/
structure SymEntry where
  name : String
  kind : SymKind
  ty : Ty
  deriving DecidableEq

/-- A scope is the ordered list of symbols declared in it. -/
abbrev Scope := List SymEntry

/-- The scope stack, top scope first. -/
abbrev SymStack := List Scope

/-- Modelled from the spec: `SymTable::findInCurrentScope` checks only the
top scope for the name. -/
def findInCurrentScope (sc : Scope) (x : String) : Bool :=
  sc.any (fun e => e.name == x)

/-- Modelled from the spec: `SymTable::findInStack` walks the scopes from
the top to the global one; `getType` and `isFunctionClass` report the type
and kind of the entry it finds.  The model returns that first entry. -/
def findInStack : SymStack → String → Option SymEntry
  | [], _ => none
  | sc :: rest, x =>
    match sc.find? (fun e => e.name == x) with
    | some e => some e
    | none => findInStack rest x

namespace TypeCheck

/-- Embedding of `TypeCheckVisitor::visitIdent` (TypeCheckVisitor.cpp,
lines 547-578): if the name is not found in the scope stack, emit
`UndeclaredIdent` and decorate with the error type and l-value true;
otherwise decorate with the symbol type, l-value true unless the symbol is
of function kind. -/
def visitIdent (st : SymStack) (x : String) : NodeDecor × List SemError :=
  match findInStack st x with
  | none => (⟨some Ty.errTy, some true⟩, [SemError.undeclaredIdent])
  | some e => (⟨some e.ty, some (!(e.kind == SymKind.functionSym))⟩, [])

/-- Embedding of `TypeCheckVisitor::visitArrayIndex` (TypeCheckVisitor.cpp,
lines 299-324).  Inputs: the decorations of the already-visited base
identifier (`tID`, `identLV`) and the type decoration of the index
expression (`tIdx`).  Output: the decoration stored on the node and the
diagnostics emitted, in emission order. -/
def visitArrayIndex (tID : Ty) (identLV : Bool) (tIdx : Ty) :
    NodeDecor × List SemError :=
  let e1 := if !tID.isErrorTy && !tID.isArrayTy then
    [SemError.nonArrayInArrayAccess] else []
  let tyDec : Option Ty := if tID.isArrayTy then some tID.getArrayElemType else none
  let e2 := if !tIdx.isErrorTy && !tIdx.isIntegerTy then
    [SemError.nonIntegerIndexInArrayAccess] else []
  (⟨tyDec, some identLV⟩, e1 ++ e2)

/-- Embedding of `TypeCheckVisitor::visitLeft_expr` (TypeCheckVisitor.cpp,
lines 262-297).  `idx` is `none` when the left expression is a plain
identifier and carries the index type when it is an indexed access. -/
def visitLeft_expr (tID : Ty) (b : Bool) (idx : Option Ty) :
    NodeDecor × List SemError :=
  match idx with
  | none => (⟨some tID, some b⟩, [])
  | some tEXPR =>
    let sv0 := !tID.isErrorTy
    let step1 :=
      if !tID.isErrorTy && !tID.isArrayTy then
        (Ty.errTy, false, false, [SemError.nonArrayInArrayAccess])
      else (tID, b, sv0, ([] : List SemError))
    let e2 := if !tEXPR.isErrorTy && !tEXPR.isIntegerTy then
      [SemError.nonIntegerIndexInArrayAccess] else []
    let final :=
      if step1.2.2.1 then (step1.1.getArrayElemType, true)
      else (step1.1, step1.2.1)
    (⟨some final.1, some final.2⟩, step1.2.2.2 ++ e2)

/-- Embedding of `TypeCheckVisitor::visitReadStmt` (TypeCheckVisitor.cpp,
lines 167-179).  Inputs are the decorations of the visited left
expression; the output is the list of diagnostics emitted. -/
def visitReadStmt (t1 : Ty) (lv : Bool) : List SemError :=
  (if !t1.isErrorTy && !t1.isPrimitiveTy && !t1.isFunctionTy then
    [SemError.readWriteRequireBasic] else [])
  ++ (if !t1.isErrorTy && !lv then
    [SemError.nonReferenceableExpression] else [])

/-- Binary arithmetic operators of the source language. -/
inductive ArithOp where
  | mul : ArithOp
  | div : ArithOp
  | mod : ArithOp
  | plus : ArithOp
  | minus : ArithOp
  deriving DecidableEq

/-- Embedding of `TypeCheckVisitor::visitArithmetic` (TypeCheckVisitor.cpp,
lines 352-372). -/
def visitArithmetic (op : ArithOp) (t1 t2 : Ty) : NodeDecor × List SemError :=
  let e1 := if (!t1.isErrorTy && !t1.isNumericTy) || (!t2.isErrorTy && !t2.isNumericTy)
    then [SemError.incompatibleOperator] else []
  let e2 := if op == ArithOp.mod && (t1.isFloatTy || t2.isFloatTy)
    then [SemError.incompatibleOperator] else []
  let t := if t1.isFloatTy || t2.isFloatTy then Ty.floatTy else Ty.intTy
  (⟨some t, some false⟩, e1 ++ e2)

/-- Embedding of the argument loop shared by
`TypeCheckVisitor::visitFuncCall` and `visitProcCall`: parameter `i` checks
`IncompatibleParameter` (1-based position) when neither side is the error
type, the types differ, and it is not the Float-parameter / Integer-argument
widening case. -/
def checkCallArgs (tID : Ty) (argTys : List Ty) : List SemError :=
  (List.range argTys.length).filterMap (fun i =>
    let tp := tID.getParameterType i
    let te := argTys.getD i Ty.errTy
    if !tp.isErrorTy && !te.isErrorTy && !(tp == te)
        && !(tp.isFloatTy && te.isIntegerTy)
    then some (SemError.incompatibleParameter (i + 1)) else none)

/-- Embedding of `TypeCheckVisitor::visitFuncCall` (TypeCheckVisitor.cpp,
lines 416-465).  Inputs: the type decoration of the callee identifier and
the type decorations of the argument expressions.  Output: the decoration
stored on the call node (note that `putTypeDecor` and `putIsLValueDecor`
are only reached inside the `isFunctionTy` branch, and `putTypeDecor` only
when the return type is not Void) and the emitted diagnostics. -/
def visitFuncCall (tID : Ty) (argTys : List Ty) : NodeDecor × List SemError :=
  let callableErrs := if !tID.isFunctionTy && !tID.isErrorTy then
    [SemError.isNotCallable] else []
  let errFlag0 := !tID.isFunctionTy && !tID.isErrorTy
  let branch :=
    if tID.isFunctionTy then
      let tf := tID.getFuncReturnType
      let voidPart : Option Ty × List SemError :=
        if tf.isVoidTy then (none, [SemError.isNotFunction]) else (some tf, [])
      let arityPart : List SemError × Bool :=
        if tID.getNumOfParameters ≠ argTys.length then
          ([SemError.numberOfParameters], true)
        else ([], errFlag0)
      ((⟨voidPart.1, some false⟩ : NodeDecor), voidPart.2 ++ arityPart.1, arityPart.2)
    else ((⟨none, none⟩ : NodeDecor), ([] : List SemError), errFlag0)
  let argErrs := if !branch.2.2 && !tID.isErrorTy then checkCallArgs tID argTys else []
  (branch.1, callableErrs ++ branch.2.1 ++ argErrs)

end TypeCheck

namespace SymbolsPass

/-- Embedding of `SymbolsVisitor::visitParameter_decl` (SymbolsVisitor.cpp,
lines 160-177).  Inputs: the current (function) scope, the type decoration
of the visited type node, and the parameter name.  Outputs: the scope after
the visit, the type decoration stored on the parameter node (`none` when
`putTypeDecor` is not reached), and the emitted diagnostics. -/
def visitParameter_decl (sc : Scope) (t1 : Ty) (ident : String) :
    Scope × Option Ty × List SemError :=
  if findInCurrentScope sc ident then (sc, none, [SemError.declaredIdent])
  else (sc ++ [⟨ident, SymKind.param, t1⟩], some t1, [])

/-- The parameter-declaration loop of `SymbolsVisitor::visitFunction`
(SymbolsVisitor.cpp, lines 91-97) visits each parameter declaration in
order; this folds `visitParameter_decl` over the declarations and collects
the per-node type decorations. -/
def visitParams (sc : Scope) (ps : List (String × Ty)) :
    Scope × List (Option Ty) × List SemError :=
  match ps with
  | [] => (sc, [], [])
  | p :: rest =>
    let step := visitParameter_decl sc p.2 p.1
    let tail := visitParams step.1 rest
    (tail.1, step.2.1 :: tail.2.1, step.2.2 ++ tail.2.2)

/-- After the loop, `SymbolsVisitor::visitFunction` reads
`getTypeDecor(pd)` for every parameter node to build the function type
(SymbolsVisitor.cpp, line 94).  Reading an unset decoration is a
programming error per the decoration contract, modelled by `none`. -/
def collectParamTypes (decors : List (Option Ty)) : Option (List Ty) :=
  decors.mapM id

end SymbolsPass

/-- Three-address instructions emitted by the code generator
(`common/code.h` opcodes, as used by `CodeGenVisitor.cpp`).  `PUSH none`
and `POP none` are the bare stack operations of the call protocol. -/
inductive Instr where
  | ADD (d a b : String) : Instr
  | SUB (d a b : String) : Instr
  | MUL (d a b : String) : Instr
  | DIV (d a b : String) : Instr
  | FADD (d a b : String) : Instr
  | FSUB (d a b : String) : Instr
  | FMUL (d a b : String) : Instr
  | FDIV (d a b : String) : Instr
  | FLOAT (d s : String) : Instr
  | ILOAD (d v : String) : Instr
  | LOAD (d s : String) : Instr
  | LOADX (d base idx : String) : Instr
  | XLOAD (base idx s : String) : Instr
  | ALOAD (d name : String) : Instr
  | READI (d : String) : Instr
  | READF (d : String) : Instr
  | READC (d : String) : Instr
  | PUSH (a : Option String) : Instr
  | POP (a : Option String) : Instr
  | CALL (name : String) : Instr
  | RETURN : Instr
  deriving DecidableEq

namespace CodeGen

/-- The `(addr, offs, code)` triple returned by the code-generation
visitors (`CodeGenVisitor::CodeAttribs`); `offs` is the empty string when
there is no index offset, as in the source. -/
structure CodeAttribs where
  addr : String
  offs : String
  code : List Instr
  deriving DecidableEq

/-- Per-function temporary counter: `"%"+codeCounters.newTEMP()` produces
`%t0, %t1, ...`. -/
def newTemp (n : Nat) : String × Nat := ("%t" ++ toString n, n + 1)

/-- Embedding of `CodeGenVisitor::visitIdent` (CodeGenVisitor.cpp, lines
825-839).  Inputs: the identifier text, its type decoration, and whether
`Symbols.isParameterClass` holds for the name; plus the temporary counter.
When the identifier is an array-typed parameter the generator dereferences
it with `LOAD temp, name` and the temporary becomes the address. -/
def visitIdent (name : String) (t : Ty) (isParamClass : Bool) (n : Nat) :
    CodeAttribs × Nat :=
  if t.isArrayTy && isParamClass then
    let tm := newTemp n
    (⟨tm.1, "", [Instr.LOAD tm.1 name]⟩, tm.2)
  else (⟨name, "", []⟩, n)

/-- Embedding of `CodeGenVisitor::visitArrayIndex` (CodeGenVisitor.cpp,
lines 809-823): concatenate the codes of the base identifier and the index
and load the element into a fresh temporary with `LOADX`. -/
def visitArrayIndex (identAts idxAts : CodeAttribs) (n : Nat) :
    CodeAttribs × Nat :=
  let tm := newTemp n
  (⟨tm.1, identAts.offs,
    identAts.code ++ idxAts.code ++ [Instr.LOADX tm.1 identAts.addr idxAts.addr]⟩,
   tm.2)

/-- Embedding of `CodeGenVisitor::visitArithmetic` (CodeGenVisitor.cpp,
lines 607-680).  Inputs: the operator, the type decorations and addresses
of the two visited operands, the concatenated operand code
(`code1 || code2`), and the temporary counter.  The float `%` case prints
a message and calls `exit(0)`, modelled as `Except.error`. -/
def visitArithmetic (op : TypeCheck.ArithOp) (t1 t2 : Ty)
    (addr1 addr2 : String) (codeIn : List Instr) (n : Nat) :
    Except String (String × List Instr × Nat) :=
  let tm := newTemp n
  if t1.isFloatTy || t2.isFloatTy then
    let conv :=
      if !t1.isFloatTy then
        let tf := newTemp tm.2
        (tf.1, addr2, [Instr.FLOAT tf.1 addr1], tf.2)
      else if !t2.isFloatTy then
        let tf := newTemp tm.2
        (addr1, tf.1, [Instr.FLOAT tf.1 addr2], tf.2)
      else (addr1, addr2, ([] : List Instr), tm.2)
    match op with
    | .mul => .ok (tm.1, codeIn ++ conv.2.2.1 ++ [Instr.FMUL tm.1 conv.1 conv.2.1], conv.2.2.2)
    | .div => .ok (tm.1, codeIn ++ conv.2.2.1 ++ [Instr.FDIV tm.1 conv.1 conv.2.1], conv.2.2.2)
    | .mod => .error "FUMAS PETARDOS BRO"
    | .plus => .ok (tm.1, codeIn ++ conv.2.2.1 ++ [Instr.FADD tm.1 conv.1 conv.2.1], conv.2.2.2)
    | .minus => .ok (tm.1, codeIn ++ conv.2.2.1 ++ [Instr.FSUB tm.1 conv.1 conv.2.1], conv.2.2.2)
  else
    match op with
    | .mul => .ok (tm.1, codeIn ++ [Instr.MUL tm.1 addr1 addr2], tm.2)
    | .div => .ok (tm.1, codeIn ++ [Instr.DIV tm.1 addr1 addr2], tm.2)
    | .mod =>
      let tD := newTemp tm.2
      let tM := newTemp tD.2
      .ok (tm.1,
        codeIn ++ [Instr.DIV tD.1 addr1 addr2, Instr.MUL tM.1 tD.1 addr2,
          Instr.SUB tm.1 addr1 tM.1], tM.2)
    | .plus => .ok (tm.1, codeIn ++ [Instr.ADD tm.1 addr1 addr2], tm.2)
    | .minus => .ok (tm.1, codeIn ++ [Instr.SUB tm.1 addr1 addr2], tm.2)

/-- Embedding of `CodeGenVisitor::visitReadStmt` (CodeGenVisitor.cpp,
lines 381-404).  Inputs: the attributes of the visited left expression,
its type decoration, and the counter.  Reads into a fresh temporary with
the kind-specific opcode, then stores with `XLOAD` or `LOAD`; any other
target type prints a message and calls `exit(0)`, modelled as
`Except.error` (the code generator holds no error reporter at all). -/
def visitReadStmt (ats : CodeAttribs) (tid : Ty) (n : Nat) :
    Except String (List Instr × Nat) :=
  let tm := newTemp n
  let store :=
    if ats.offs ≠ "" then [Instr.XLOAD ats.addr ats.offs tm.1]
    else [Instr.LOAD ats.addr tm.1]
  if tid.isIntegerTy || tid.isBooleanTy then
    .ok (ats.code ++ [Instr.READI tm.1] ++ store, tm.2)
  else if tid.isFloatTy then
    .ok (ats.code ++ [Instr.READF tm.1] ++ store, tm.2)
  else if tid.isCharacterTy then
    .ok (ats.code ++ [Instr.READC tm.1] ++ store, tm.2)
  else .error "Type error in visitReadStmt"

/-- One visited call argument: the attributes returned by visiting the
argument expression, its type decoration, and whether
`Symbols.isParameterClass` holds for the expression text. -/
structure ArgInfo where
  ats : CodeAttribs
  ty : Ty
  isParamText : Bool
  deriving DecidableEq

/-- The body of the argument loop shared verbatim by
`CodeGenVisitor::visitProcCall` and `visitFuncCall` (CodeGenVisitor.cpp,
lines 327-349 and 534-554): append the argument code; widen with `FLOAT`
when the declared parameter is Float and the argument is not; take the
address with `ALOAD` when the declared parameter is an array and the
argument text is not a parameter; then `PUSH` the resulting address. -/
def lowerArg (t : Ty) (i : Nat) (a : ArgInfo) (n : Nat) : List Instr × Nat :=
  let p := t.getParameterType i
  if p.isFloatTy && !a.ty.isFloatTy then
    let tm := newTemp n
    (a.ats.code ++ [Instr.FLOAT tm.1 a.ats.addr, Instr.PUSH (some tm.1)], tm.2)
  else if p.isArrayTy && !a.isParamText then
    let tm := newTemp n
    (a.ats.code ++ [Instr.ALOAD tm.1 a.ats.addr, Instr.PUSH (some tm.1)], tm.2)
  else (a.ats.code ++ [Instr.PUSH (some a.ats.addr)], n)

/-- The argument loop itself: arguments are lowered in order with the
parameter index `i` counting up. -/
def lowerArgs (t : Ty) (args : List ArgInfo) (i n : Nat) : List Instr × Nat :=
  match args with
  | [] => ([], n)
  | a :: rest =>
    let blk := lowerArg t i a n
    let tail := lowerArgs t rest (i + 1) blk.2
    (blk.1 ++ tail.1, tail.2)

/-- Embedding of `CodeGenVisitor::visitFuncCall` (CodeGenVisitor.cpp,
lines 523-572).  Inputs: the attributes of the visited callee identifier,
the callee text, the callee type decoration, the visited arguments, and
the counter.  A result slot is pushed unconditionally; after the `CALL`,
one bare `POP` per argument and a final `POP` into a fresh temporary that
becomes the expression address. -/
def visitFuncCall (identAts : CodeAttribs) (name : String) (t : Ty)
    (args : List ArgInfo) (n : Nat) : CodeAttribs × Nat :=
  let la := lowerArgs t args 0 n
  let tm := newTemp la.2
  (⟨tm.1, identAts.offs,
    identAts.code ++ [Instr.PUSH none] ++ la.1 ++ [Instr.CALL name]
      ++ List.replicate args.length (Instr.POP none)
      ++ [Instr.POP (some tm.1)]⟩,
   tm.2)

/-- Embedding of `CodeGenVisitor::visitProcCall` (CodeGenVisitor.cpp,
lines 316-365).  The result slot is pushed only when the callee is not a
Void function, and in that case a final bare `POP` discards the result. -/
def visitProcCall (identAts : CodeAttribs) (name : String) (t : Ty)
    (args : List ArgInfo) (n : Nat) : List Instr × Nat :=
  let la := lowerArgs t args 0 n
  (identAts.code
    ++ (if !t.isVoidFunction then [Instr.PUSH none] else [])
    ++ la.1 ++ [Instr.CALL name]
    ++ List.replicate args.length (Instr.POP none)
    ++ (if !t.isVoidFunction then [Instr.POP none] else []),
   la.2)

/-- One parameter declaration of an IR subroutine: name, type text and
the by-array-reference flag (`subroutine::add_param`). -/
structure ParamDecl where
  pname : String
  ptext : String
  isArrayRef : Bool
  deriving DecidableEq

/-- Embedding of `CodeGenVisitor::visitParameter_decl` (CodeGenVisitor.cpp,
lines 123-139): an array-typed parameter is declared with the element type
text and marked as an array reference. -/
def visitParameter_decl (name : String) (t : Ty) : ParamDecl :=
  if t.isArrayTy then ⟨name, Ty.toText t.getArrayElemType, true⟩
  else ⟨name, Ty.toText t, false⟩

/-- Modelled from the spec: the decoration read
`getTypeDecor(ctx->basic_type())` of `CodeGenVisitor::visitFunction`
(CodeGenVisitor.cpp, line 90), where `ctx->basic_type()` may be absent.
`TreeDecoration` is not among the source files; per the spec, reading an
entry that was never decorated — and the absent node has no decoration —
is a programming error, modelled as `Except.error`.  A present return-type
node always carries the type stored by the earlier passes. -/
def getTypeDecorOfReturnNode (retNode : Option Ty) : Except String Ty :=
  match retNode with
  | some t => .ok t
  | none => .error "TreeDecoration: read of an unset decoration"

/-- Embedding of the prologue of `CodeGenVisitor::visitFunction`
(CodeGenVisitor.cpp, lines 82-103): the return-type node decoration is
read first, unconditionally; only then is the presence of the return-type
node tested to decide whether `_result` is declared, and the parameter
declarations follow. -/
def visitFunctionPrologue (retNode : Option Ty) (params : List (String × Ty)) :
    Except String (List ParamDecl) :=
  match getTypeDecorOfReturnNode retNode with
  | .error e => .error e
  | .ok t1 =>
    .ok ((if retNode.isSome then [⟨"_result", Ty.toText t1, false⟩] else [])
      ++ params.map (fun p => visitParameter_decl p.1 p.2))

/-- Classifier for float arithmetic instructions (`FADD/FSUB/FMUL/FDIV`),
used to state that a single conversion precedes the arithmetic
instruction. -/
def isFloatArith : Instr → Bool
  | .FADD _ _ _ => true
  | .FSUB _ _ _ => true
  | .FMUL _ _ _ => true
  | .FDIV _ _ _ => true
  | _ => false

/-- Acceptance of one call argument by the type checker, as claim C6 words
it: the argument type equals the declared parameter type, or the parameter
is Float and the argument is Integer. -/
def argAccepted (p : Ty) (a : ArgInfo) : Bool :=
  Ty.beq p a.ty || (p.isFloatTy && a.ty.isIntegerTy)

/-- Acceptance of the whole argument list, with the parameter index
starting at `i`. -/
def argsAccepted (t : Ty) (args : List ArgInfo) (i : Nat) : Bool :=
  match args with
  | [] => true
  | a :: rest => argAccepted (t.getParameterType i) a
      && argsAccepted t rest (i + 1)

/-- One argument block exactly as the claim words it: the argument code,
then a `FLOAT` widening into a fresh temporary when the declared parameter
is Float and the argument is Integer, then an `ALOAD` of a locally owned
array, then the `PUSH` of the resulting address. -/
def claimArgBlock (p : Ty) (a : ArgInfo) (n : Nat) :
    List Instr × Nat :=
  if p.isFloatTy && a.ty.isIntegerTy then
    let tm := newTemp n
    (a.ats.code ++ [Instr.FLOAT tm.1 a.ats.addr, Instr.PUSH (some tm.1)], tm.2)
  else if p.isArrayTy && !a.isParamText then
    let tm := newTemp n
    (a.ats.code ++ [Instr.ALOAD tm.1 a.ats.addr, Instr.PUSH (some tm.1)], tm.2)
  else (a.ats.code ++ [Instr.PUSH (some a.ats.addr)], n)

/-- The claim-worded argument lowering of the whole list, blocks in
argument order. -/
def claimArgs (t : Ty) (args : List ArgInfo) (i n : Nat) :
    List Instr × Nat :=
  match args with
  | [] => ([], n)
  | a :: rest =>
    let blk := claimArgBlock (t.getParameterType i) a n
    let tail := claimArgs t rest (i + 1) blk.2
    (blk.1 ++ tail.1, tail.2)

end CodeGen

theorem Ty.eq_intTy_of_isIntegerTy {t : Ty} (h : t.isIntegerTy = true) :
    t = Ty.intTy := by
  cases t <;> simp_all [Ty.isIntegerTy]

theorem Ty.eq_floatTy_of_isFloatTy {t : Ty} (h : t.isFloatTy = true) :
    t = Ty.floatTy := by
  cases t <;> simp_all [Ty.isFloatTy]

theorem Ty.isNumericTy_cases {t : Ty} (h : t.isNumericTy = true) :
    t = Ty.intTy ∨ t = Ty.floatTy := by
  cases t <;> simp_all [Ty.isNumericTy, Ty.isIntegerTy, Ty.isFloatTy]

theorem Ty.not_float_of_array {t : Ty} (h : t.isArrayTy = true) :
    t.isFloatTy = false := by
  cases t <;> simp_all [Ty.isArrayTy, Ty.isFloatTy]

namespace CodeGen

theorem lowerArg_eq_claimArgBlock (t : Ty) (i : Nat) (a : ArgInfo) (n : Nat)
    (h : argAccepted (t.getParameterType i) a = true) :
    lowerArg t i a n = claimArgBlock (t.getParameterType i) a n := by
  obtain ⟨ats, ty, ip⟩ := a
  simp only [lowerArg, claimArgBlock]
  revert h
  generalize t.getParameterType i = p
  intro h
  simp only [argAccepted, Bool.or_eq_true, Bool.and_eq_true] at h
  rcases h with h | ⟨hf, hi⟩
  · have hpa : p = ty := Ty.eq_of_beq _ _ h
    subst hpa
    cases p <;> simp [Ty.isFloatTy, Ty.isIntegerTy]
  · rw [Ty.eq_floatTy_of_isFloatTy hf, Ty.eq_intTy_of_isIntegerTy hi]
    simp [Ty.isFloatTy, Ty.isIntegerTy]

theorem lowerArgs_eq_claimArgs (t : Ty) :
    ∀ (args : List ArgInfo) (i n : Nat), argsAccepted t args i = true →
      lowerArgs t args i n = claimArgs t args i n
  | [], _, _, _ => rfl
  | a :: rest, i, n, h => by
    simp only [argsAccepted, Bool.and_eq_true] at h
    simp only [lowerArgs, claimArgs, lowerArg_eq_claimArgBlock t i a n h.1,
      lowerArgs_eq_claimArgs t rest (i + 1) _ h.2]

end CodeGen

/-- The float arithmetic instruction the generator selects for each
operator (`FMUL/FDIV/FADD/FSUB`); the `%` case is never reached on Float
operands because the checker rejects them, and is mapped arbitrarily. -/
def CodeGen.floatArithInstr : TypeCheck.ArithOp → String → String → String → Instr
  | .mul, d, a, b => .FMUL d a b
  | .div, d, a, b => .FDIV d a b
  | .mod, d, a, b => .FADD d a b
  | .plus, d, a, b => .FADD d a b
  | .minus, d, a, b => .FSUB d a b

/-- C1.  The claim states that every node visited by the type checker gets
a type decoration, and every expression node additionally an l-value flag,
in particular call-expression nodes whose callee is not a function type or
whose return type is Void, and array-index expression nodes whose base is
not an array.  Evaluating the embedded visitors at exactly those nodes
shows the opposite: a call on an Integer-typed callee stores neither
decoration, a call on a Void function stores no type, and an array index
on an Integer base stores no type.  The decoration contract makes every
later `getType`/`getIsLValue` on these nodes a fatal programming error, so
the code, not the claim, is at fault. -/
theorem C1_call_and_index_nodes_left_undecorated :
    (TypeCheck.visitFuncCall Ty.intTy []).1 = ⟨none, none⟩
    ∧ (TypeCheck.visitFuncCall (Ty.funcTy [] Ty.voidTy) []).1.ty = none
    ∧ (TypeCheck.visitFuncCall (Ty.funcTy [] Ty.voidTy) []).2 = [SemError.isNotFunction]
    ∧ (TypeCheck.visitArrayIndex Ty.intTy true Ty.intTy).1.ty = none
    ∧ (TypeCheck.visitArrayIndex Ty.intTy true Ty.intTy).2
        = [SemError.nonArrayInArrayAccess] := by
  exact ⟨rfl, rfl, rfl, rfl, rfl⟩

/-- C2, counterexample.  The claim says that for `a[i]` with `a` neither
Error nor Array the checker emits `NonArrayInArrayAccess` and the node's
type is left as Error.  At base type Integer and index type Integer the
diagnostic is emitted, but the node's type decoration is not the error
type: it is not written at all. -/
theorem C2_counterexample :
    SemError.nonArrayInArrayAccess ∈ (TypeCheck.visitArrayIndex Ty.intTy true Ty.intTy).2
    ∧ (TypeCheck.visitArrayIndex Ty.intTy true Ty.intTy).1.ty ≠ some Ty.errTy
    ∧ (TypeCheck.visitArrayIndex Ty.intTy true Ty.intTy).1.ty = none := by
  decide

/-- C2, amended.  For `a[i]`: when the base type is neither Error nor
Array, both forms emit `NonArrayInArrayAccess`; the left-expression form
sets the node type to Error while the expression form leaves the node
undecorated.  The node type is set to the array element type exactly when
the base is an array (in both forms): an Error base, which draws no
diagnostic, also gets no element type — the expression form leaves that
node undecorated too, while the left-expression form keeps the Error
type.  The three base cases (neither Error nor Array / Array / Error) are
exhaustive.  Independently, both forms emit
`NonIntegerIndexInArrayAccess` iff the index type is neither Error nor
Integer. -/
theorem C2_amended_array_access (tID tIdx : Ty) (b : Bool) :
    ((tID.isErrorTy = false ∧ tID.isArrayTy = false) →
      SemError.nonArrayInArrayAccess ∈ (TypeCheck.visitArrayIndex tID b tIdx).2
      ∧ (TypeCheck.visitArrayIndex tID b tIdx).1.ty = none
      ∧ SemError.nonArrayInArrayAccess ∈ (TypeCheck.visitLeft_expr tID b (some tIdx)).2
      ∧ (TypeCheck.visitLeft_expr tID b (some tIdx)).1.ty = some Ty.errTy)
    ∧ (tID.isArrayTy = true →
      SemError.nonArrayInArrayAccess ∉ (TypeCheck.visitArrayIndex tID b tIdx).2
      ∧ (TypeCheck.visitArrayIndex tID b tIdx).1.ty = some tID.getArrayElemType
      ∧ (TypeCheck.visitLeft_expr tID b (some tIdx)).1.ty = some tID.getArrayElemType)
    ∧ (tID.isErrorTy = true →
      SemError.nonArrayInArrayAccess ∉ (TypeCheck.visitArrayIndex tID b tIdx).2
      ∧ (TypeCheck.visitArrayIndex tID b tIdx).1.ty = none
      ∧ SemError.nonArrayInArrayAccess ∉ (TypeCheck.visitLeft_expr tID b (some tIdx)).2
      ∧ (TypeCheck.visitLeft_expr tID b (some tIdx)).1.ty = some Ty.errTy)
    ∧ (SemError.nonIntegerIndexInArrayAccess ∈ (TypeCheck.visitArrayIndex tID b tIdx).2 ↔
        (tIdx.isErrorTy = false ∧ tIdx.isIntegerTy = false))
    ∧ (SemError.nonIntegerIndexInArrayAccess ∈ (TypeCheck.visitLeft_expr tID b (some tIdx)).2 ↔
        (tIdx.isErrorTy = false ∧ tIdx.isIntegerTy = false)) := by
  cases tID <;> cases tIdx <;>
    simp [TypeCheck.visitArrayIndex, TypeCheck.visitLeft_expr, Ty.isErrorTy,
      Ty.isArrayTy, Ty.isIntegerTy, Ty.getArrayElemType]

/-- Witness for C2 (amended): an array base with a Boolean index sets the
element type and reports the non-integer index; an Error base draws no
diagnostic, stays undecorated in the expression form, and keeps the Error
type in the left-expression form. -/
theorem C2_amended_witness :
    (TypeCheck.visitArrayIndex (Ty.arrayTy 2 Ty.intTy) true Ty.boolTy).1.ty =
      some (Ty.arrayTy 2 Ty.intTy).getArrayElemType
    ∧ SemError.nonIntegerIndexInArrayAccess ∈
        (TypeCheck.visitArrayIndex (Ty.arrayTy 2 Ty.intTy) true Ty.boolTy).2
    ∧ (TypeCheck.visitArrayIndex Ty.errTy true Ty.intTy).1.ty = none
    ∧ SemError.nonArrayInArrayAccess ∉
        (TypeCheck.visitArrayIndex Ty.errTy true Ty.intTy).2
    ∧ (TypeCheck.visitLeft_expr Ty.errTy true (some Ty.intTy)).1.ty = some Ty.errTy := by
  have h := C2_amended_array_access (Ty.arrayTy 2 Ty.intTy) Ty.boolTy true
  have h2 := C2_amended_array_access Ty.errTy Ty.intTy true
  exact ⟨(h.2.1 (by decide)).2.1, h.2.2.2.1.mpr (by decide),
    (h2.2.2.1 (by decide)).2.1, (h2.2.2.1 (by decide)).1,
    (h2.2.2.1 (by decide)).2.2.2⟩

/-- C3, counterexample.  The claim says the checker emits
`ReadWriteRequireBasic` iff the (non-Error) target type is not primitive,
with no other type condition suppressing it.  A Function-typed target is
neither Error nor primitive, yet the extra `isFunctionTy` guard in
`visitReadStmt` suppresses the diagnostic. -/
theorem C3_counterexample :
    (Ty.funcTy [] Ty.voidTy).isErrorTy = false
    ∧ (Ty.funcTy [] Ty.voidTy).isPrimitiveTy = false
    ∧ SemError.readWriteRequireBasic ∉
        TypeCheck.visitReadStmt (Ty.funcTy [] Ty.voidTy) false := by
  decide

/-- C3, amended.  For a read statement whose target type is not Error:
`ReadWriteRequireBasic` is emitted iff the target type is neither
primitive nor a function type, and `NonReferenceableExpression` is
emitted iff the target's l-value flag is false. -/
theorem C3_amended_read_diagnostics (t1 : Ty) (lv : Bool)
    (h : t1.isErrorTy = false) :
    (SemError.readWriteRequireBasic ∈ TypeCheck.visitReadStmt t1 lv ↔
      (t1.isPrimitiveTy = false ∧ t1.isFunctionTy = false))
    ∧ (SemError.nonReferenceableExpression ∈ TypeCheck.visitReadStmt t1 lv ↔
        lv = false) := by
  cases t1 <;> cases lv <;>
    simp_all [TypeCheck.visitReadStmt, Ty.isErrorTy, Ty.isPrimitiveTy,
      Ty.isFunctionTy, Ty.isIntegerTy, Ty.isFloatTy, Ty.isBooleanTy,
      Ty.isCharacterTy]

/-- Witness for C3 (amended): reading into a non-l-value array target
emits both diagnostics. -/
theorem C3_amended_witness :
    SemError.readWriteRequireBasic ∈
      TypeCheck.visitReadStmt (Ty.arrayTy 1 Ty.intTy) false
    ∧ SemError.nonReferenceableExpression ∈
        TypeCheck.visitReadStmt (Ty.arrayTy 1 Ty.intTy) false := by
  have h := C3_amended_read_diagnostics (Ty.arrayTy 1 Ty.intTy) false (by decide)
  exact ⟨h.1.mpr (by decide), h.2.mpr rfl⟩

/-- C4.  For every identifier node: if the name is not in the scope stack,
`UndeclaredIdent` is emitted and the node is decorated with the error type
and l-value true; otherwise the node gets the symbol's type, and its
l-value flag is true exactly when the symbol kind is not Function. -/
theorem C4_ident_decoration (st : SymStack) (x : String) :
    (findInStack st x = none →
      TypeCheck.visitIdent st x =
        (⟨some Ty.errTy, some true⟩, [SemError.undeclaredIdent]))
    ∧ (∀ e, findInStack st x = some e →
      TypeCheck.visitIdent st x =
        (⟨some e.ty, some (!(e.kind == SymKind.functionSym))⟩, [])) := by
  constructor
  · intro h
    simp [TypeCheck.visitIdent, h]
  · intro e h
    simp [TypeCheck.visitIdent, h]

/-- Witness for C4: a function name gets l-value false, a local variable
l-value true, and an unknown name the error type with l-value true. -/
theorem C4_ident_witness :
    TypeCheck.visitIdent
        [[⟨"f", SymKind.functionSym, Ty.funcTy [] Ty.voidTy⟩,
          ⟨"v", SymKind.localVar, Ty.intTy⟩]] "f" =
      (⟨some (Ty.funcTy [] Ty.voidTy), some false⟩, [])
    ∧ TypeCheck.visitIdent [[⟨"v", SymKind.localVar, Ty.intTy⟩]] "v" =
      (⟨some Ty.intTy, some true⟩, [])
    ∧ TypeCheck.visitIdent ([] : SymStack) "w" =
      (⟨some Ty.errTy, some true⟩, [SemError.undeclaredIdent]) := by
  refine ⟨?_, ?_, ?_⟩
  · exact (C4_ident_decoration
      [[⟨"f", SymKind.functionSym, Ty.funcTy [] Ty.voidTy⟩,
        ⟨"v", SymKind.localVar, Ty.intTy⟩]] "f").2
      ⟨"f", SymKind.functionSym, Ty.funcTy [] Ty.voidTy⟩ (by decide)
  · exact (C4_ident_decoration [[⟨"v", SymKind.localVar, Ty.intTy⟩]] "v").2
      ⟨"v", SymKind.localVar, Ty.intTy⟩ (by decide)
  · exact (C4_ident_decoration ([] : SymStack) "w").1 rfl

/-- C5.  For arithmetic with both operand types numeric: the checker
decorates the result Float iff either operand is Float (else Integer) and
emits `IncompatibleOperator` exactly when the operator is `%` and an
operand is Float; and for a node the checker accepted (so not `%` on a
Float) with exactly one Float operand, the generator emits exactly one
`FLOAT` conversion, applied to the non-Float operand's address,
immediately before the single float arithmetic instruction. -/
theorem C5_mixed_arithmetic (op : TypeCheck.ArithOp) (t1 t2 : Ty)
    (addr1 addr2 : String) (codeIn : List Instr) (n : Nat)
    (h1 : t1.isNumericTy = true) (h2 : t2.isNumericTy = true) :
    ((TypeCheck.visitArithmetic op t1 t2).1.ty =
        some (if t1.isFloatTy || t2.isFloatTy then Ty.floatTy else Ty.intTy))
    ∧ (SemError.incompatibleOperator ∈ (TypeCheck.visitArithmetic op t1 t2).2 ↔
        (op = TypeCheck.ArithOp.mod ∧ (t1.isFloatTy || t2.isFloatTy) = true))
    ∧ (t1.isFloatTy ≠ t2.isFloatTy → op ≠ TypeCheck.ArithOp.mod →
        CodeGen.visitArithmetic op t1 t2 addr1 addr2 codeIn n =
          Except.ok ("%t" ++ toString n,
            codeIn ++ [Instr.FLOAT ("%t" ++ toString (n + 1))
                (if t1.isFloatTy then addr2 else addr1),
              CodeGen.floatArithInstr op ("%t" ++ toString n)
                (if t1.isFloatTy then addr1 else "%t" ++ toString (n + 1))
                (if t1.isFloatTy then "%t" ++ toString (n + 1) else addr2)],
            n + 2)
        ∧ (∀ d a b, CodeGen.isFloatArith (CodeGen.floatArithInstr op d a b) = true)) := by
  rcases Ty.isNumericTy_cases h1 with rfl | rfl <;>
    rcases Ty.isNumericTy_cases h2 with rfl | rfl <;>
    cases op <;>
    refine ⟨by decide, by decide, ?_⟩ <;>
    intro hmix hmod <;>
    first
    | exact absurd rfl hmix
    | exact absurd rfl hmod
    | (refine ⟨?_, fun d a b => rfl⟩
       simp [CodeGen.visitArithmetic, CodeGen.newTemp, CodeGen.floatArithInstr,
         Ty.isFloatTy])

/-- Witness for C5: `x + y` with `x : Integer` and `y : Float` widens `x`
once and adds with `FADD`. -/
theorem C5_mixed_arithmetic_witness :
    CodeGen.visitArithmetic TypeCheck.ArithOp.plus Ty.intTy Ty.floatTy
        "x" "y" [] 0 =
      Except.ok ("%t0", [Instr.FLOAT "%t1" "x", Instr.FADD "%t0" "%t1" "y"], 2) := by
  have h := (C5_mixed_arithmetic TypeCheck.ArithOp.plus Ty.intTy Ty.floatTy
      "x" "y" [] 0 (by decide) (by decide)).2.2 (by decide) (by decide)
  exact h.1

/-- C6.  For a call accepted by the type checker (every argument type
equals the declared parameter type or is Integer against a Float
parameter): the lowering pushes a result slot exactly when the callee
returns non-Void (a function-value use has a non-Void callee by
acceptance, and the generator pushes; a procedure call pushes iff the
callee is not a Void function), lowers each argument in order as the
claim-worded blocks (code, optional `FLOAT` widening on an Integer
argument of a Float parameter, `PUSH`), emits `CALL`, one bare `POP` per
argument, and finally a `POP` into a fresh temporary that becomes the
expression address for a function-value use, or one final bare `POP` for
a non-Void procedure call. -/
theorem C6_call_protocol (identAts : CodeGen.CodeAttribs) (name : String)
    (t : Ty) (args : List CodeGen.ArgInfo) (n : Nat)
    (hacc : CodeGen.argsAccepted t args 0 = true) :
    (t.isVoidFunction = false →
      CodeGen.visitFuncCall identAts name t args n =
        (⟨"%t" ++ toString (CodeGen.claimArgs t args 0 n).2, identAts.offs,
          identAts.code ++ [Instr.PUSH none] ++ (CodeGen.claimArgs t args 0 n).1
            ++ [Instr.CALL name]
            ++ List.replicate args.length (Instr.POP none)
            ++ [Instr.POP (some ("%t" ++ toString (CodeGen.claimArgs t args 0 n).2))]⟩,
         (CodeGen.claimArgs t args 0 n).2 + 1))
    ∧ (CodeGen.visitProcCall identAts name t args n =
        (identAts.code
          ++ (if t.isVoidFunction then [] else [Instr.PUSH none])
          ++ (CodeGen.claimArgs t args 0 n).1 ++ [Instr.CALL name]
          ++ List.replicate args.length (Instr.POP none)
          ++ (if t.isVoidFunction then [] else [Instr.POP none]),
         (CodeGen.claimArgs t args 0 n).2)) := by
  have hla := CodeGen.lowerArgs_eq_claimArgs t args 0 n hacc
  constructor
  · intro _
    simp [CodeGen.visitFuncCall, CodeGen.newTemp, hla]
  · cases hv : t.isVoidFunction <;>
      simp [CodeGen.visitProcCall, hla, hv]

/-- Witness for C6: calling `f(v)` where `f : (Float) → Integer` and `v`
is an Integer local widens the argument, pushes it, calls, pops the
argument and pops the result into a fresh temporary. -/
theorem C6_call_protocol_witness :
    CodeGen.visitFuncCall ⟨"f", "", []⟩ "f" (Ty.funcTy [Ty.floatTy] Ty.intTy)
        [⟨⟨"v", "", []⟩, Ty.intTy, false⟩] 0 =
      (⟨"%t1", "",
        [Instr.PUSH none, Instr.FLOAT "%t0" "v", Instr.PUSH (some "%t0"),
          Instr.CALL "f", Instr.POP none, Instr.POP (some "%t1")]⟩, 2) := by
  have h := (C6_call_protocol ⟨"f", "", []⟩ "f" (Ty.funcTy [Ty.floatTy] Ty.intTy)
      [⟨⟨"v", "", []⟩, Ty.intTy, false⟩] 0 (by decide)).1 (by decide)
  simpa [CodeGen.claimArgs, CodeGen.claimArgBlock, CodeGen.newTemp,
    Ty.getParameterType, Ty.isFloatTy, Ty.isIntegerTy] using h

/-- C7, counterexample.  The claim says an array parameter passed as an
array argument is pushed directly with no intervening instruction, a
dereferencing `LOAD` appearing only when the parameter is indexed.  But
the generator's identifier visit emits `LOAD %t0, a` for every expression
use of an array parameter: passing parameter `a` to `f : (array) →
Integer` produces the `LOAD` between the result-slot `PUSH` and the
argument `PUSH`, which pushes the loaded temporary, not `a`. -/
theorem C7_counterexample :
    (CodeGen.visitIdent "a" (Ty.arrayTy 3 Ty.intTy) true 0).1.code =
      [Instr.LOAD "%t0" "a"]
    ∧ (CodeGen.visitFuncCall ⟨"f", "", []⟩ "f"
          (Ty.funcTy [Ty.arrayTy 3 Ty.intTy] Ty.intTy)
          [⟨(CodeGen.visitIdent "a" (Ty.arrayTy 3 Ty.intTy) true 0).1,
            Ty.arrayTy 3 Ty.intTy, true⟩] 1).1.code =
        [Instr.PUSH none, Instr.LOAD "%t0" "a", Instr.PUSH (some "%t0"),
          Instr.CALL "f", Instr.POP none, Instr.POP (some "%t1")]
    ∧ Instr.LOAD "%t0" "a" ∈
        (CodeGen.visitFuncCall ⟨"f", "", []⟩ "f"
          (Ty.funcTy [Ty.arrayTy 3 Ty.intTy] Ty.intTy)
          [⟨(CodeGen.visitIdent "a" (Ty.arrayTy 3 Ty.intTy) true 0).1,
            Ty.arrayTy 3 Ty.intTy, true⟩] 1).1.code := by
  refine ⟨rfl, rfl, by decide⟩

/-- C7, amended.  A locally owned array identifier is visited without
extra code and its pass to an array parameter emits `ALOAD` into a fresh
temporary before the `PUSH`.  An array-parameter identifier is
dereferenced with `LOAD tmp, param` by every expression use of the
identifier — in particular both when it is passed as an argument (the
loaded temporary is what gets pushed, with no `ALOAD`) and when it is
indexed, where the `LOAD` precedes the `LOADX`. -/
theorem C7_amended_array_argument (x : String) (s : Nat) (e : Ty) (n : Nat)
    (t : Ty) (i : Nat) (a : CodeGen.ArgInfo) (idxAts : CodeGen.CodeAttribs)
    (hp : (t.getParameterType i).isArrayTy = true) :
    (CodeGen.visitIdent x (Ty.arrayTy s e) false n = (⟨x, "", []⟩, n))
    ∧ (CodeGen.visitIdent x (Ty.arrayTy s e) true n =
        (⟨"%t" ++ toString n, "", [Instr.LOAD ("%t" ++ toString n) x]⟩, n + 1))
    ∧ (a.isParamText = false →
        CodeGen.lowerArg t i a n =
          (a.ats.code ++ [Instr.ALOAD ("%t" ++ toString n) a.ats.addr,
            Instr.PUSH (some ("%t" ++ toString n))], n + 1))
    ∧ (a.isParamText = true →
        CodeGen.lowerArg t i a n =
          (a.ats.code ++ [Instr.PUSH (some a.ats.addr)], n))
    ∧ (CodeGen.visitArrayIndex (CodeGen.visitIdent x (Ty.arrayTy s e) true n).1
          idxAts (CodeGen.visitIdent x (Ty.arrayTy s e) true n).2 =
        (⟨"%t" ++ toString (n + 1), "",
          [Instr.LOAD ("%t" ++ toString n) x] ++ idxAts.code
            ++ [Instr.LOADX ("%t" ++ toString (n + 1)) ("%t" ++ toString n)
                  idxAts.addr]⟩, n + 2)) := by
  have hnf := Ty.not_float_of_array hp
  refine ⟨?_, ?_, ?_, ?_, ?_⟩
  · simp [CodeGen.visitIdent, Ty.isArrayTy]
  · simp [CodeGen.visitIdent, Ty.isArrayTy, CodeGen.newTemp]
  · intro hl
    simp [CodeGen.lowerArg, hp, hnf, hl, CodeGen.newTemp]
  · intro hl
    simp [CodeGen.lowerArg, hp, hnf, hl]
  · simp [CodeGen.visitIdent, CodeGen.visitArrayIndex, Ty.isArrayTy,
      CodeGen.newTemp]

/-- Witness for C7 (amended): a local array lowered against an array
parameter takes its address with `ALOAD` and pushes the temporary. -/
theorem C7_amended_witness :
    CodeGen.lowerArg (Ty.funcTy [Ty.arrayTy 3 Ty.intTy] Ty.voidTy) 0
        ⟨⟨"a", "", []⟩, Ty.arrayTy 3 Ty.intTy, false⟩ 0 =
      ([Instr.ALOAD "%t0" "a", Instr.PUSH (some "%t0")], 1) := by
  have h := C7_amended_array_argument "a" 3 Ty.intTy 0
      (Ty.funcTy [Ty.arrayTy 3 Ty.intTy] Ty.voidTy) 0
      ⟨⟨"a", "", []⟩, Ty.arrayTy 3 Ty.intTy, false⟩ ⟨"i", "", []⟩ (by decide)
  exact h.2.2.1 rfl

/-- C8.  The claim states the symbol collector decorates every parameter
node with its declared type even when the name duplicates one already in
scope.  Evaluating the embedded pass on the duplicate parameter list
`(x : int, x : int)` shows the duplicate node is left undecorated (only
`DeclaredIdent` is emitted), and the enclosing function visit, which reads
every parameter node's decoration to build the function type, then reads
an unset entry — a fatal programming error per the decoration contract.
The code, not the claim, is at fault. -/
theorem C8_duplicate_parameter_left_undecorated :
    SymbolsPass.visitParams [] [("x", Ty.intTy), ("x", Ty.intTy)] =
      ([⟨"x", SymKind.param, Ty.intTy⟩], [some Ty.intTy, none],
        [SemError.declaredIdent])
    ∧ SymbolsPass.collectParamTypes [some Ty.intTy, none] = none := by
  exact ⟨rfl, rfl⟩

/-- C9.  Lowering a read statement whose target type is none of Integer,
Boolean, Float or Character terminates the process (`exit(0)`, modelled
as `Except.error`); the code generator holds no error reporter, so no
diagnostic can be recorded. -/
theorem C9_read_nonprimitive_aborts (ats : CodeGen.CodeAttribs) (tid : Ty)
    (n : Nat) (h1 : tid.isIntegerTy = false) (h2 : tid.isBooleanTy = false)
    (h3 : tid.isFloatTy = false) (h4 : tid.isCharacterTy = false) :
    CodeGen.visitReadStmt ats tid n =
      Except.error "Type error in visitReadStmt" := by
  simp [CodeGen.visitReadStmt, h1, h2, h3, h4]

/-- Witness for C9: reading into an array-typed target aborts. -/
theorem C9_read_witness :
    CodeGen.visitReadStmt ⟨"a", "", []⟩ (Ty.arrayTy 3 Ty.intTy) 0 =
      Except.error "Type error in visitReadStmt" :=
  C9_read_nonprimitive_aborts ⟨"a", "", []⟩ (Ty.arrayTy 3 Ty.intTy) 0
    (by decide) (by decide) (by decide) (by decide)

/-- C10, counterexample.  The claim says the decoration of the return-type
node is only read when that node is present.  But the prologue evaluates
`getTypeDecor(ctx->basic_type())` before testing presence, so for a
function with no declared return type the lookup on the absent node does
occur (a read of an unset decoration under the decoration contract). -/
theorem C10_counterexample :
    CodeGen.visitFunctionPrologue none [("p", Ty.intTy)] =
      Except.error "TreeDecoration: read of an unset decoration" := by
  exact rfl

/-- C10, amended.  The `_result` parameter is declared first exactly when
the function declares a return type; however the decoration of the
return-type node is read unconditionally, so for a function with no
declared return type the prologue performs the lookup on the absent node
(a read of an unset decoration) before the presence test. -/
theorem C10_amended_prologue (t : Ty) (params : List (String × Ty)) :
    CodeGen.visitFunctionPrologue (some t) params =
      Except.ok (⟨"_result", Ty.toText t, false⟩ ::
        params.map (fun p => CodeGen.visitParameter_decl p.1 p.2))
    ∧ CodeGen.visitFunctionPrologue none params =
      Except.error "TreeDecoration: read of an unset decoration" := by
  constructor <;>
    simp [CodeGen.visitFunctionPrologue, CodeGen.getTypeDecorOfReturnNode]

end Asl
